import Mathlib

/-!
Verification of the Guardian wearable safety beacon firmware.

The repository contains three firmware variants of the control loop and the
fall detector:

* the display variant (`firmware/guardian/guardian.ino`, duplicated in
  `part_002`): raw-to-g divisor `1024.0`, `FREEFALL_THRESHOLD = 0.4`,
  `IMPACT_THRESHOLD = 3.0`, freefall timeout `1000` ms,
  `ALERT_COOLDOWN = 10000` ms;
* the proxy-server variant (`part_001`): divisor `256.0`, thresholds
  `0.6` / `2.2`, timeout `1200` ms, `ALERT_COOLDOWN = 10000` ms;
* the `part_003` variant: divisor `64.0`, thresholds `0.4` / `3.0`,
  a minimum freefall duration `FREEFALL_TIME_MS = 250` ms and
  `ALERT_COOLDOWN_MS = 15000` ms, with a structurally different
  `checkForFall`.

Modelling conventions:

* `millis()` values are natural numbers; the firmware's `unsigned long`
  subtraction `millis() - t` is modelled by `usub32`, subtraction modulo
  `2 ^ 32` (the SAMD21 target has 32-bit `unsigned long`).
* the firmware computes `float` g-forces and compares
  `sqrt(x_g^2 + y_g^2 + z_g^2)` against a threshold.  We model the
  arithmetic exactly over `ℚ` and compare the squared magnitude against the
  squared threshold; theorems `totalG_lt_iff` and `totalG_gt_iff` below
  prove that, over the reals, this is equivalent to the source's comparison
  of the square root against the (positive) threshold.  The threshold
  comparison `Prop`s receive `Decidable` instances through exact
  integer-scaled reformulations so that concrete runs can be evaluated by
  `decide`.
* each call of `checkForFall` uses a single `millis()` value `now` (the
  source may call `millis()` twice in one invocation, microseconds apart).
* within one `loop` iteration, `millis()` is read at the cooldown check
  (`tStart`), inside `checkForFall` (`tFallCheck`), and when
  `lastAlertTime` is assigned after each alert path (`tAfterButton`,
  `tAfterFall`); these are separate input fields because real time passes
  during the `delay` and network calls between them.
-/

/-- A raw 3-axis accelerometer sample (`accel_sensor.X`, `.Y`, `.Z`). -/
structure AccelRaw where
  X : Int
  Y : Int
  Z : Int
  deriving Repr, DecidableEq

/-- The fall detector's retained state: the source's file-scope
`static bool freefall_flag` (`isFreefall` in `part_003`) and
`static unsigned long freefall_time` (`freefallStartTime` in `part_003`). -/
structure FallState where
  freefall_flag : Bool
  freefall_time : Nat
  deriving Repr, DecidableEq

/-- The full mutable device state relevant to the control loop:
the cooldown timestamp `lastAlertTime` and the fall detector state. -/
structure DeviceState where
  lastAlertTime : Nat
  fall : FallState
  deriving Repr, DecidableEq

/-- The reason attached to an emitted alert, identified by the two
`sendTelegramAlert` call sites (`"Manual alert triggered!"` and
`"Fall detected!"`). -/
inductive AlertReason where
  | Manual
  | FallDetected
  deriving Repr, DecidableEq

/-- The per-iteration inputs of `loop`: the button level, the raw
accelerometer sample read inside `checkForFall`, the `millis()` readings at
each point where the source calls `millis()`, and the network outcome of
`client.connect` inside `sendTelegramAlert` (which only affects what is
drawn on the display, never the loop state). -/
structure CycleInput where
  buttonPressed : Bool
  raw : AccelRaw
  tStart : Nat
  tFallCheck : Nat
  tAfterButton : Nat
  tAfterFall : Nat
  sendOk : Bool
  deriving Repr, DecidableEq

/-- Unsigned 32-bit subtraction `a - b` as computed on `unsigned long`. -/
def usub32 (a b : Nat) : Nat :=
  (a + (2 ^ 32 - b % 2 ^ 32)) % 2 ^ 32

/-- The integer sum of squares `X*X + Y*Y + Z*Z` of a raw sample. -/
def rawMagSq (r : AccelRaw) : Int :=
  r.X ^ 2 + r.Y ^ 2 + r.Z ^ 2

/-- Squared g-force magnitude `x_g^2 + y_g^2 + z_g^2` where each axis is the
raw reading divided by the variant's raw-to-g divisor. -/
def totalGSq (d : ℚ) (r : AccelRaw) : ℚ :=
  ((r.X : ℚ) / d) ^ 2 + ((r.Y : ℚ) / d) ^ 2 + ((r.Z : ℚ) / d) ^ 2

namespace Guardian

/-- Source constant `const float FREEFALL_THRESHOLD = 0.4` (display variant). -/
def FREEFALL_THRESHOLD : ℚ := 2 / 5

/-- Source constant `const float IMPACT_THRESHOLD = 3.0` (display variant). -/
def IMPACT_THRESHOLD : ℚ := 3

/-- The raw-to-g divisor `1024.0` hard-coded in the display variant's
`checkForFall`. -/
def RAW_DIVISOR : ℚ := 1024

/-- The freefall timeout literal `1000` ms in the display variant. -/
def FREEFALL_TIMEOUT : Nat := 1000

/-- Source constant `const unsigned long ALERT_COOLDOWN = 10000`. -/
def ALERT_COOLDOWN : Nat := 10000

/-- The display variant's test `total_g < FREEFALL_THRESHOLD`, stated on
squared magnitudes (equivalent over the reals; see `totalG_lt_iff`). -/
def freefallCond (r : AccelRaw) : Prop :=
  totalGSq RAW_DIVISOR r < FREEFALL_THRESHOLD ^ 2

/-- The display variant's test `total_g > IMPACT_THRESHOLD`, stated on
squared magnitudes (equivalent over the reals; see `totalG_gt_iff`). -/
def impactCond (r : AccelRaw) : Prop :=
  totalGSq RAW_DIVISOR r > IMPACT_THRESHOLD ^ 2

/-- Decidability of the freefall test through the exact integer scaling
`(M / 1024^2 < (2/5)^2) = (25 * M < 4 * 1024^2)` where `M = X^2+Y^2+Z^2`. -/
instance : DecidablePred freefallCond := fun r =>
  decidable_of_iff (25 * rawMagSq r < 4194304) <| by
    unfold freefallCond FREEFALL_THRESHOLD RAW_DIVISOR totalGSq rawMagSq
    rw [show ((2 : ℚ) / 5) ^ 2 = 4 / 25 by norm_num,
      div_pow, div_pow, div_pow, div_add_div_same, div_add_div_same,
      div_lt_div_iff₀ (by norm_num) (by norm_num),
      show ((r.X : ℚ) ^ 2 + (r.Y : ℚ) ^ 2 + (r.Z : ℚ) ^ 2) * 25 =
        ((25 * (r.X ^ 2 + r.Y ^ 2 + r.Z ^ 2) : ℤ) : ℚ) by push_cast; ring,
      show ((4 : ℚ) * 1024 ^ 2) = ((4194304 : ℤ) : ℚ) by norm_num,
      Int.cast_lt]

/-- Decidability of the impact test through the exact integer scaling
`(M / 1024^2 > 3^2) = (M > 9 * 1024^2)` where `M = X^2+Y^2+Z^2`. -/
instance : DecidablePred impactCond := fun r =>
  decidable_of_iff (rawMagSq r > 9437184) <| by
    unfold impactCond IMPACT_THRESHOLD RAW_DIVISOR totalGSq rawMagSq
    simp only [gt_iff_lt]
    rw [div_pow, div_pow, div_pow, div_add_div_same, div_add_div_same,
      lt_div_iff₀ (by norm_num),
      show ((3 : ℚ) ^ 2) * 1024 ^ 2 = ((9437184 : ℤ) : ℚ) by norm_num,
      show ((r.X : ℚ) ^ 2 + (r.Y : ℚ) ^ 2 + (r.Z : ℚ) ^ 2) =
        (((r.X ^ 2 + r.Y ^ 2 + r.Z ^ 2) : ℤ) : ℚ) by push_cast; ring,
      Int.cast_lt]

end Guardian

namespace Proxy

/-- Source constant `const float FREEFALL_THRESHOLD = 0.6` (proxy variant). -/
def FREEFALL_THRESHOLD : ℚ := 3 / 5

/-- Source constant `const float IMPACT_THRESHOLD = 2.2` (proxy variant). -/
def IMPACT_THRESHOLD : ℚ := 11 / 5

/-- The raw-to-g divisor `256.0` hard-coded in the proxy variant's
`checkForFall`. -/
def RAW_DIVISOR : ℚ := 256

/-- The freefall timeout literal `1200` ms in the proxy variant. -/
def FREEFALL_TIMEOUT : Nat := 1200

/-- Source constant `const unsigned long ALERT_COOLDOWN = 10000`. -/
def ALERT_COOLDOWN : Nat := 10000

/-- The proxy variant's test `total_g < FREEFALL_THRESHOLD` on squared
magnitudes. -/
def freefallCond (r : AccelRaw) : Prop :=
  totalGSq RAW_DIVISOR r < FREEFALL_THRESHOLD ^ 2

/-- The proxy variant's test `total_g > IMPACT_THRESHOLD` on squared
magnitudes. -/
def impactCond (r : AccelRaw) : Prop :=
  totalGSq RAW_DIVISOR r > IMPACT_THRESHOLD ^ 2

/-- Decidability through the scaling
`(M / 256^2 < (3/5)^2) = (25 * M < 9 * 256^2)`. -/
instance : DecidablePred freefallCond := fun r =>
  decidable_of_iff (25 * rawMagSq r < 589824) <| by
    unfold freefallCond FREEFALL_THRESHOLD RAW_DIVISOR totalGSq rawMagSq
    rw [show ((3 : ℚ) / 5) ^ 2 = 9 / 25 by norm_num,
      div_pow, div_pow, div_pow, div_add_div_same, div_add_div_same,
      div_lt_div_iff₀ (by norm_num) (by norm_num),
      show ((r.X : ℚ) ^ 2 + (r.Y : ℚ) ^ 2 + (r.Z : ℚ) ^ 2) * 25 =
        ((25 * (r.X ^ 2 + r.Y ^ 2 + r.Z ^ 2) : ℤ) : ℚ) by push_cast; ring,
      show ((9 : ℚ) * 256 ^ 2) = ((589824 : ℤ) : ℚ) by norm_num,
      Int.cast_lt]

/-- Decidability through the scaling
`(M / 256^2 > (11/5)^2) = (25 * M > 121 * 256^2)`. -/
instance : DecidablePred impactCond := fun r =>
  decidable_of_iff (25 * rawMagSq r > 7929856) <| by
    unfold impactCond IMPACT_THRESHOLD RAW_DIVISOR totalGSq rawMagSq
    simp only [gt_iff_lt]
    rw [show ((11 : ℚ) / 5) ^ 2 = 121 / 25 by norm_num,
      div_pow, div_pow, div_pow, div_add_div_same, div_add_div_same,
      div_lt_div_iff₀ (by norm_num) (by norm_num),
      show ((r.X : ℚ) ^ 2 + (r.Y : ℚ) ^ 2 + (r.Z : ℚ) ^ 2) * 25 =
        ((25 * (r.X ^ 2 + r.Y ^ 2 + r.Z ^ 2) : ℤ) : ℚ) by push_cast; ring,
      show ((121 : ℚ) * 256 ^ 2) = ((7929856 : ℤ) : ℚ) by norm_num,
      Int.cast_lt]

end Proxy

namespace V3

/-- Source constant `const float FREEFALL_THRESHOLD_G = 0.4` (`part_003`). -/
def FREEFALL_THRESHOLD_G : ℚ := 2 / 5

/-- Source constant `const float IMPACT_THRESHOLD_G = 3.0` (`part_003`). -/
def IMPACT_THRESHOLD_G : ℚ := 3

/-- The raw-to-g divisor `64.0` hard-coded in `part_003`'s `checkForFall`. -/
def RAW_DIVISOR : ℚ := 64

/-- Source constant `const unsigned long FREEFALL_TIME_MS = 250` (`part_003`). -/
def FREEFALL_TIME_MS : Nat := 250

/-- Source constant `const unsigned long ALERT_COOLDOWN_MS = 15000` (`part_003`). -/
def ALERT_COOLDOWN_MS : Nat := 15000

/-- The `part_003` test `total_g < FREEFALL_THRESHOLD_G` on squared
magnitudes. -/
def freefallCond (r : AccelRaw) : Prop :=
  totalGSq RAW_DIVISOR r < FREEFALL_THRESHOLD_G ^ 2

/-- The `part_003` test `total_g > IMPACT_THRESHOLD_G` on squared
magnitudes. -/
def impactCond (r : AccelRaw) : Prop :=
  totalGSq RAW_DIVISOR r > IMPACT_THRESHOLD_G ^ 2

/-- Decidability through the scaling
`(M / 64^2 < (2/5)^2) = (25 * M < 4 * 64^2)`. -/
instance : DecidablePred freefallCond := fun r =>
  decidable_of_iff (25 * rawMagSq r < 16384) <| by
    unfold freefallCond FREEFALL_THRESHOLD_G RAW_DIVISOR totalGSq rawMagSq
    rw [show ((2 : ℚ) / 5) ^ 2 = 4 / 25 by norm_num,
      div_pow, div_pow, div_pow, div_add_div_same, div_add_div_same,
      div_lt_div_iff₀ (by norm_num) (by norm_num),
      show ((r.X : ℚ) ^ 2 + (r.Y : ℚ) ^ 2 + (r.Z : ℚ) ^ 2) * 25 =
        ((25 * (r.X ^ 2 + r.Y ^ 2 + r.Z ^ 2) : ℤ) : ℚ) by push_cast; ring,
      show ((4 : ℚ) * 64 ^ 2) = ((16384 : ℤ) : ℚ) by norm_num,
      Int.cast_lt]

/-- Decidability through the scaling `(M / 64^2 > 3^2) = (M > 9 * 64^2)`. -/
instance : DecidablePred impactCond := fun r =>
  decidable_of_iff (rawMagSq r > 36864) <| by
    unfold impactCond IMPACT_THRESHOLD_G RAW_DIVISOR totalGSq rawMagSq
    simp only [gt_iff_lt]
    rw [div_pow, div_pow, div_pow, div_add_div_same, div_add_div_same,
      lt_div_iff₀ (by norm_num),
      show ((3 : ℚ) ^ 2) * 64 ^ 2 = ((36864 : ℤ) : ℚ) by norm_num,
      show ((r.X : ℚ) ^ 2 + (r.Y : ℚ) ^ 2 + (r.Z : ℚ) ^ 2) =
        (((r.X ^ 2 + r.Y ^ 2 + r.Z ^ 2) : ℤ) : ℚ) by push_cast; ring,
      Int.cast_lt]

end V3

/-- The common body of `checkForFall` in the display and proxy variants,
parameterised by the two threshold tests (the only place the two variants
differ, apart from the timeout literal).  Mirrors the source line by line:
a sub-threshold sample sets the flag and records `millis()`; if the flag is
then set, an impact sample returns `true` and clears the flag, otherwise a
timeout since `freefall_time` clears the flag; `freefall_time` itself is
never cleared. -/
def checkForFallCore (freefallP impactP : AccelRaw → Prop)
    [DecidablePred freefallP] [DecidablePred impactP] (timeout : Nat)
    (raw : AccelRaw) (now : Nat) (s : FallState) : Bool × FallState :=
  let s1 := if freefallP raw then (⟨true, now⟩ : FallState) else s
  if s1.freefall_flag then
    if impactP raw then
      (true, ⟨false, s1.freefall_time⟩)
    else if usub32 now s1.freefall_time > timeout then
      (false, ⟨false, s1.freefall_time⟩)
    else
      (false, s1)
  else
    (false, s1)

/-- Function `checkForFall` of the display variant (`guardian.ino`, `part_002`). -/
def Guardian.checkForFall (raw : AccelRaw) (now : Nat) (s : FallState) :
    Bool × FallState :=
  checkForFallCore Guardian.freefallCond Guardian.impactCond
    Guardian.FREEFALL_TIMEOUT raw now s

/-- Function `checkForFall` of the proxy-server variant (`part_001`). -/
def Proxy.checkForFall (raw : AccelRaw) (now : Nat) (s : FallState) :
    Bool × FallState :=
  checkForFallCore Proxy.freefallCond Proxy.impactCond
    Proxy.FREEFALL_TIMEOUT raw now s

/-- Function `checkForFall` of `part_003`: a sub-threshold sample opens the window
only when none is open; any sample at or above the freefall threshold
closes an open window, confirming a fall exactly when the window was open
strictly longer than `FREEFALL_TIME_MS` and the sample exceeds the impact
threshold. -/
def V3.checkForFall (raw : AccelRaw) (now : Nat) (s : FallState) :
    Bool × FallState :=
  if V3.freefallCond raw then
    if s.freefall_flag then (false, s) else (false, ⟨true, now⟩)
  else if s.freefall_flag then
    if usub32 now s.freefall_time > V3.FREEFALL_TIME_MS ∧ V3.impactCond raw then
      (true, ⟨false, s.freefall_time⟩)
    else
      (false, ⟨false, s.freefall_time⟩)
  else
    (false, s)

/-- The body of a `loop` iteration once the cooldown gate has been passed,
shared by all variants (parameterised by the variant's fall checker):
the button branch emits `Manual` and sets `lastAlertTime`; then the fall
check runs unconditionally and, if it confirms, emits `FallDetected` and
sets `lastAlertTime` again. -/
def loopBody (check : AccelRaw → Nat → FallState → Bool × FallState)
    (inp : CycleInput) (s : DeviceState) : List AlertReason × DeviceState :=
  let s1 : DeviceState :=
    if inp.buttonPressed then ⟨inp.tAfterButton, s.fall⟩ else s
  let a1 : List AlertReason :=
    if inp.buttonPressed then [AlertReason.Manual] else []
  let res := check inp.raw inp.tFallCheck s1.fall
  if res.1 then
    (a1 ++ [AlertReason.FallDetected], ⟨inp.tAfterFall, res.2⟩)
  else
    (a1, ⟨s1.lastAlertTime, res.2⟩)

/-- One `loop` iteration of the display variant: the body runs only when
`millis() - lastAlertTime > ALERT_COOLDOWN`. -/
def Guardian.loopStep (inp : CycleInput) (s : DeviceState) :
    List AlertReason × DeviceState :=
  if usub32 inp.tStart s.lastAlertTime > Guardian.ALERT_COOLDOWN then
    loopBody Guardian.checkForFall inp s
  else
    ([], s)

/-- One `loop` iteration of the proxy variant (`part_001`), structurally
identical to the display variant's loop. -/
def Proxy.loopStep (inp : CycleInput) (s : DeviceState) :
    List AlertReason × DeviceState :=
  if usub32 inp.tStart s.lastAlertTime > Proxy.ALERT_COOLDOWN then
    loopBody Proxy.checkForFall inp s
  else
    ([], s)

/-- One `loop` iteration of `part_003`: returns immediately when
`millis() - lastAlertTime < ALERT_COOLDOWN_MS`. -/
def V3.loopStep (inp : CycleInput) (s : DeviceState) :
    List AlertReason × DeviceState :=
  if usub32 inp.tStart s.lastAlertTime < V3.ALERT_COOLDOWN_MS then
    ([], s)
  else
    loopBody V3.checkForFall inp s

/-- Feed a list of `(sample, millis)` pairs through a fall checker,
returning the list of per-call results. -/
def runCheck (check : AccelRaw → Nat → FallState → Bool × FallState) :
    List (AccelRaw × Nat) → FallState → List Bool
  | [], _ => []
  | (r, t) :: rest, s =>
    let res := check r t s
    res.1 :: runCheck check rest res.2


/-- The squared-magnitude comparison used in the freefall tests agrees with
the source's comparison `sqrt(x_g^2+y_g^2+z_g^2) < c` for every positive
threshold `c`. -/
theorem totalG_lt_iff (d c : ℚ) (r : AccelRaw) (hc : 0 < c) :
    Real.sqrt ((totalGSq d r : ℚ) : ℝ) < (c : ℝ) ↔ totalGSq d r < c ^ 2 := by
  rw [Real.sqrt_lt' (by exact_mod_cast hc)]
  norm_cast

/-- The squared-magnitude comparison used in the impact tests agrees with
the source's comparison `sqrt(x_g^2+y_g^2+z_g^2) > c` for every nonnegative
threshold `c`. -/
theorem totalG_gt_iff (d c : ℚ) (r : AccelRaw) (hc : 0 ≤ c) :
    (c : ℝ) < Real.sqrt ((totalGSq d r : ℚ) : ℝ) ↔ c ^ 2 < totalGSq d r := by
  rw [Real.lt_sqrt (by exact_mod_cast hc)]
  norm_cast

/-- When the flag is down and the sample is not sub-threshold, a
`checkForFallCore` call is a no-op returning `false`. -/
theorem checkForFallCore_idle (freefallP impactP : AccelRaw → Prop)
    [DecidablePred freefallP] [DecidablePred impactP] (timeout : Nat)
    (raw : AccelRaw) (now : Nat) (t0 : Nat) (hr : ¬ freefallP raw) :
    checkForFallCore freefallP impactP timeout raw now ⟨false, t0⟩ =
      (false, ⟨false, t0⟩) := by
  unfold checkForFallCore
  simp [hr]

/-- A stream with no sub-threshold sample leaves the detector in its idle
state and yields `false` on every call (shared by both core variants). -/
theorem runCheck_core_all_false (freefallP impactP : AccelRaw → Prop)
    [DecidablePred freefallP] [DecidablePred impactP] (timeout : Nat)
    (stream : List (AccelRaw × Nat)) (t0 : Nat)
    (h : ∀ p ∈ stream, ¬ freefallP p.1) :
    runCheck (checkForFallCore freefallP impactP timeout) stream ⟨false, t0⟩ =
      List.replicate stream.length false := by
  induction stream with
  | nil => rfl
  | cons p rest ih =>
    obtain ⟨r, t⟩ := p
    have hr : ¬ freefallP r := h (r, t) (List.mem_cons_self _ _)
    simp only [runCheck, checkForFallCore_idle freefallP impactP timeout r t t0 hr,
      List.length_cons, List.replicate_succ]
    exact congrArg (List.cons false) (ih fun q hq => h q (List.mem_cons_of_mem _ hq))

/-- Claim C6 (confirmed): for every acceleration stream whose computed
magnitude never drops below the variant's `FREEFALL_THRESHOLD`, starting
from the initial no-window-open state, `checkForFall` returns `false` on
every call — in the display variant and in the proxy variant alike. -/
theorem C6_no_freefall_never_true (stream : List (AccelRaw × Nat)) (t0 : Nat) :
    ((∀ p ∈ stream, ¬ Guardian.freefallCond p.1) →
      runCheck Guardian.checkForFall stream ⟨false, t0⟩ =
        List.replicate stream.length false) ∧
    ((∀ p ∈ stream, ¬ Proxy.freefallCond p.1) →
      runCheck Proxy.checkForFall stream ⟨false, t0⟩ =
        List.replicate stream.length false) :=
  ⟨fun h => runCheck_core_all_false _ _ _ stream t0 h,
   fun h => runCheck_core_all_false _ _ _ stream t0 h⟩

/-- Witness for C6: three constant at-rest samples (raw `1024` per axis,
i.e. `1 g` per axis in the display variant's scaling) yield `false` three
times; likewise two at-rest samples in the proxy variant's scaling. -/
theorem C6_no_freefall_never_true_witness :
    runCheck Guardian.checkForFall
        [(⟨1024, 1024, 1024⟩, 0), (⟨1024, 1024, 1024⟩, 100),
          (⟨1024, 1024, 1024⟩, 200)] ⟨false, 0⟩ =
      List.replicate 3 false ∧
    runCheck Proxy.checkForFall
        [(⟨256, 256, 256⟩, 0), (⟨256, 256, 256⟩, 100)] ⟨false, 0⟩ =
      List.replicate 2 false :=
  ⟨(C6_no_freefall_never_true _ 0).1 (by decide),
   (C6_no_freefall_never_true _ 0).2 (by decide)⟩

/-- Claim C8 (confirmed): the display and proxy fall checkers are not
extensionally equal.  On the raw sample `(256, 0, 0)` they compute
different (squared) g-force magnitudes — `1/16` versus `1` — and hence
different g-force magnitudes; on the raw stream
`(256,0,0)` then `(4096,0,0)` the display variant reports a fall on the
second call while the proxy variant reports none. -/
theorem C8_variants_disagree :
    totalGSq Guardian.RAW_DIVISOR ⟨256, 0, 0⟩ ≠
      totalGSq Proxy.RAW_DIVISOR ⟨256, 0, 0⟩ ∧
    Real.sqrt ((totalGSq Guardian.RAW_DIVISOR ⟨256, 0, 0⟩ : ℚ) : ℝ) ≠
      Real.sqrt ((totalGSq Proxy.RAW_DIVISOR ⟨256, 0, 0⟩ : ℚ) : ℝ) ∧
    runCheck Guardian.checkForFall
        [(⟨256, 0, 0⟩, 0), (⟨4096, 0, 0⟩, 100)] ⟨false, 0⟩ = [false, true] ∧
    runCheck Proxy.checkForFall
        [(⟨256, 0, 0⟩, 0), (⟨4096, 0, 0⟩, 100)] ⟨false, 0⟩ = [false, false] := by
  have hG : totalGSq Guardian.RAW_DIVISOR ⟨256, 0, 0⟩ = 1 / 16 := by
    unfold totalGSq Guardian.RAW_DIVISOR
    norm_num
  have hP : totalGSq Proxy.RAW_DIVISOR ⟨256, 0, 0⟩ = 1 := by
    unfold totalGSq Proxy.RAW_DIVISOR
    norm_num
  refine ⟨by rw [hG, hP]; norm_num, ?_, by decide, by decide⟩
  rw [hG, hP]
  intro h
  rw [Real.sqrt_inj (by norm_num) (by norm_num)] at h
  norm_num at h

/-- Counterexample to claim C1: an iteration that starts outside cooldown
emits a `Manual` alert (setting `lastAlertTime` to `22500`) and then, in
the remainder of that same iteration, still runs the fall check and emits
a second `FallDetected` alert at `25100` — only `2600` ms after the Manual
alert, well inside `ALERT_COOLDOWN`.  The source loop checks the cooldown
only once, at the top of the iteration. -/
theorem C1_cooldown_counterexample :
    (Guardian.loopStep ⟨true, ⟨4096, 0, 0⟩, 20000, 22600, 22500, 25100, true⟩
        ⟨0, ⟨true, 19000⟩⟩).1 =
      [AlertReason.Manual, AlertReason.FallDetected] ∧
    usub32 25100 22500 < Guardian.ALERT_COOLDOWN := by decide

/-- Claim C1 (amended): every loop iteration whose cooldown check happens
strictly within the variant's own cooldown of `lastAlertTime` — `10000` ms
in the display and proxy variants, `15000` ms in `part_003` — emits no
alert and leaves the state unchanged, regardless of the button state, the
sample, and the network outcome; but the suppression does not extend to the
remainder of the iteration in which an alert was just emitted: there the
fall check still runs and can emit a second alert
(`C1_cooldown_counterexample`). -/
theorem C1_cooldown_suppression (inp : CycleInput) (s : DeviceState) :
    (usub32 inp.tStart s.lastAlertTime < 10000 →
      Guardian.loopStep inp s = ([], s) ∧ Proxy.loopStep inp s = ([], s)) ∧
    (usub32 inp.tStart s.lastAlertTime < 15000 →
      V3.loopStep inp s = ([], s)) := by
  refine ⟨fun h => ⟨?_, ?_⟩, fun h => ?_⟩
  · unfold Guardian.loopStep Guardian.ALERT_COOLDOWN
    rw [if_neg (by omega)]
  · unfold Proxy.loopStep Proxy.ALERT_COOLDOWN
    rw [if_neg (by omega)]
  · unfold V3.loopStep V3.ALERT_COOLDOWN_MS
    rw [if_pos (by omega)]

/-- Witness for C1 (amended): at `9999` ms after the last alert, with the
button held and an impact sample ready, the display and proxy variants emit
nothing and keep their state; `part_003` does the same at `14999` ms —
inside its own `15000` ms cooldown though past `10000` ms. -/
theorem C1_cooldown_suppression_witness :
    (Guardian.loopStep ⟨true, ⟨4096, 0, 0⟩, 9999, 9999, 10100, 10200, true⟩
        ⟨0, ⟨true, 9000⟩⟩ = ([], ⟨0, ⟨true, 9000⟩⟩) ∧
     Proxy.loopStep ⟨true, ⟨4096, 0, 0⟩, 9999, 9999, 10100, 10200, true⟩
        ⟨0, ⟨true, 9000⟩⟩ = ([], ⟨0, ⟨true, 9000⟩⟩)) ∧
    V3.loopStep ⟨true, ⟨4096, 0, 0⟩, 14999, 14999, 15100, 15200, true⟩
        ⟨0, ⟨true, 14000⟩⟩ = ([], ⟨0, ⟨true, 14000⟩⟩) :=
  ⟨(C1_cooldown_suppression
      ⟨true, ⟨4096, 0, 0⟩, 9999, 9999, 10100, 10200, true⟩
      ⟨0, ⟨true, 9000⟩⟩).1 (by decide),
   (C1_cooldown_suppression
      ⟨true, ⟨4096, 0, 0⟩, 14999, 14999, 15100, 15200, true⟩
      ⟨0, ⟨true, 14000⟩⟩).2 (by decide)⟩

/-- Counterexample to claim C2: with no cooldown active at the start of the
cycle, the button pressed, and the fall detector confirming a fall in that
same cycle, the iteration emits TWO alerts — `Manual` and then
`FallDetected` — not exactly one. -/
theorem C2_manual_only_counterexample :
    usub32 50000 30000 > Guardian.ALERT_COOLDOWN ∧
    (Guardian.checkForFall ⟨5000, 0, 0⟩ 52600 ⟨true, 49900⟩).1 = true ∧
    (Guardian.loopStep ⟨true, ⟨5000, 0, 0⟩, 50000, 52600, 52500, 55100, false⟩
        ⟨30000, ⟨true, 49900⟩⟩).1 =
      [AlertReason.Manual, AlertReason.FallDetected] := by decide

/-- Claim C2 (amended): if in a single cycle the button is pressed and the
fall detector confirms a fall (and no cooldown is active at the start of
the cycle), the display variant emits two alerts in order: `Manual` first
— the button is checked first — and then `FallDetected` as well; the
button branch does not suppress the fall branch. -/
theorem C2_button_then_fall (inp : CycleInput) (s : DeviceState)
    (hcd : usub32 inp.tStart s.lastAlertTime > Guardian.ALERT_COOLDOWN)
    (hb : inp.buttonPressed = true)
    (hf : (Guardian.checkForFall inp.raw inp.tFallCheck s.fall).1 = true) :
    (Guardian.loopStep inp s).1 =
      [AlertReason.Manual, AlertReason.FallDetected] := by
  unfold Guardian.loopStep
  rw [if_pos hcd]
  unfold loopBody
  simp only [hb, if_true]
  simp [hf]

/-- Witness for C2 (amended): a concrete cycle with the button pressed and
an impact sample confirming a primed freefall window emits `Manual` then
`FallDetected`. -/
theorem C2_button_then_fall_witness :
    (Guardian.loopStep ⟨true, ⟨4100, 0, 0⟩, 21000, 23600, 23500, 26100, true⟩
        ⟨1000, ⟨true, 20950⟩⟩).1 =
      [AlertReason.Manual, AlertReason.FallDetected] :=
  C2_button_then_fall _ _ (by decide) (by decide) (by decide)

/-- Counterexample to claim C3: before any alert has ever been emitted
(`lastAlertTime` still holds its initialiser `0`), at `5000` ms since boot
— within `ALERT_COOLDOWN` of boot — the loop does NOT evaluate the trigger
sources: the button is held and the fall detector would confirm, yet the
iteration emits nothing and changes nothing, because
`millis() - 0 > ALERT_COOLDOWN` is false.  There is no
skip-if-never-alerted case in the code. -/
theorem C3_boot_counterexample :
    Guardian.loopStep ⟨true, ⟨4096, 0, 0⟩, 5000, 5000, 5100, 5200, true⟩
        ⟨0, ⟨true, 4900⟩⟩ = ([], ⟨0, ⟨true, 4900⟩⟩) := by decide

/-- Claim C3 (amended): when no alert has ever been emitted,
`lastAlertTime = 0` makes the cooldown test read `millis() > ALERT_COOLDOWN`:
during the first `ALERT_COOLDOWN` milliseconds after boot the loop behaves
exactly as if in cooldown (no trigger source is evaluated), and only after
that are the button and fall sources evaluated.  `part_003` behaves the
same with its `15000` ms constant. -/
theorem C3_boot_cooldown (inp : CycleInput) (s : DeviceState)
    (h0 : s.lastAlertTime = 0) (hlt : inp.tStart < 2 ^ 32) :
    (inp.tStart ≤ Guardian.ALERT_COOLDOWN → Guardian.loopStep inp s = ([], s)) ∧
    (inp.tStart > Guardian.ALERT_COOLDOWN →
      Guardian.loopStep inp s = loopBody Guardian.checkForFall inp s) ∧
    (inp.tStart < V3.ALERT_COOLDOWN_MS → V3.loopStep inp s = ([], s)) ∧
    (V3.ALERT_COOLDOWN_MS ≤ inp.tStart →
      V3.loopStep inp s = loopBody V3.checkForFall inp s) := by
  have hd : usub32 inp.tStart s.lastAlertTime = inp.tStart := by
    rw [h0]
    unfold usub32
    omega
  refine ⟨fun hle => ?_, fun hgt => ?_, fun hlt2 => ?_, fun hge => ?_⟩
  · unfold Guardian.loopStep
    rw [hd, if_neg (by unfold Guardian.ALERT_COOLDOWN at hle ⊢; omega)]
  · unfold Guardian.loopStep
    rw [hd, if_pos hgt]
  · unfold V3.loopStep
    rw [hd, if_pos hlt2]
  · unfold V3.loopStep
    rw [hd, if_neg (by omega)]

/-- Witness for C3 (amended): at `5000` ms since boot both variants
suppress (even with the button held and a fall ready); at `20000` ms both
run their trigger checks. -/
theorem C3_boot_cooldown_witness :
    Guardian.loopStep ⟨true, ⟨4096, 0, 0⟩, 5000, 5000, 5100, 5200, true⟩
        ⟨0, ⟨false, 0⟩⟩ = ([], ⟨0, ⟨false, 0⟩⟩) ∧
    Guardian.loopStep ⟨true, ⟨4096, 0, 0⟩, 20000, 20000, 20100, 20200, true⟩
        ⟨0, ⟨false, 0⟩⟩ =
      loopBody Guardian.checkForFall
        ⟨true, ⟨4096, 0, 0⟩, 20000, 20000, 20100, 20200, true⟩ ⟨0, ⟨false, 0⟩⟩ ∧
    V3.loopStep ⟨true, ⟨4096, 0, 0⟩, 5000, 5000, 5100, 5200, true⟩
        ⟨0, ⟨false, 0⟩⟩ = ([], ⟨0, ⟨false, 0⟩⟩) ∧
    V3.loopStep ⟨true, ⟨4096, 0, 0⟩, 20000, 20000, 20100, 20200, true⟩
        ⟨0, ⟨false, 0⟩⟩ =
      loopBody V3.checkForFall
        ⟨true, ⟨4096, 0, 0⟩, 20000, 20000, 20100, 20200, true⟩
        ⟨0, ⟨false, 0⟩⟩ :=
  ⟨(C3_boot_cooldown _ _ rfl (by decide)).1 (by decide),
   (C3_boot_cooldown _ _ rfl (by decide)).2.1 (by decide),
   (C3_boot_cooldown _ _ rfl (by decide)).2.2.1 (by decide),
   (C3_boot_cooldown _ _ rfl (by decide)).2.2.2 (by decide)⟩

/-- Unsigned 32-bit subtraction of a timestamp from itself is zero. -/
theorem usub32_self (a : Nat) : usub32 a a = 0 := by
  unfold usub32
  omega

/-- In the display variant a sub-threshold sample can never simultaneously
be an impact sample (`0.4 < 3`). -/
theorem Guardian.freefall_not_impact (r : AccelRaw) :
    Guardian.freefallCond r → ¬ Guardian.impactCond r := by
  unfold Guardian.freefallCond Guardian.impactCond Guardian.FREEFALL_THRESHOLD
    Guardian.IMPACT_THRESHOLD
  intro h h2
  norm_num at h h2
  linarith

/-- Claim C4 (confirmed, `part_003` — the only variant that defines
`MIN_FREEFALL_DURATION`, as `FREEFALL_TIME_MS = 250`): an impact sample
arriving while the freefall window has been open for less than
`FREEFALL_TIME_MS` yields `false`; and the detector returns `true` only
when a window was open and had been open at least `FREEFALL_TIME_MS`. -/
theorem C4_min_freefall_guard (raw : AccelRaw) (now : Nat) (s : FallState) :
    (s.freefall_flag = true → V3.impactCond raw →
      usub32 now s.freefall_time < V3.FREEFALL_TIME_MS →
      (V3.checkForFall raw now s).1 = false) ∧
    ((V3.checkForFall raw now s).1 = true →
      s.freefall_flag = true ∧
      V3.FREEFALL_TIME_MS ≤ usub32 now s.freefall_time) := by
  unfold V3.checkForFall V3.FREEFALL_TIME_MS
  constructor
  · intro hflag himp helapsed
    split_ifs with h1 h2
    · rfl
    · exact absurd h2.1 (by omega)
    · rfl
  · intro htrue
    split_ifs at htrue with h1 h2 h3 h4
    exact ⟨h3, le_of_lt h4.1⟩

/-- Witness for C4: with a window opened at `0`, an impact raw sample
`(4096,0,0)` at `100` ms (window open `100 < 250` ms) yields `false`;
the same impact at `300` ms yields `true`, and the theorem's second half
confirms the window was then open at least `250` ms. -/
theorem C4_min_freefall_guard_witness :
    (V3.checkForFall ⟨4096, 0, 0⟩ 100 ⟨true, 0⟩).1 = false ∧
    ((⟨true, 0⟩ : FallState).freefall_flag = true ∧
      V3.FREEFALL_TIME_MS ≤ usub32 300 0) :=
  ⟨(C4_min_freefall_guard ⟨4096, 0, 0⟩ 100 ⟨true, 0⟩).1 (by decide) (by decide)
      (by decide),
   (C4_min_freefall_guard ⟨4096, 0, 0⟩ 300 ⟨true, 0⟩).2 (by decide)⟩

/-- Counterexample to claim C5: in the display variant, while a freefall
window is already open (opened at `100`), a further sub-threshold sample at
`600` re-records the window's timestamp — the recorded start does NOT stay
unchanged while the window remains open. -/
theorem C5_window_counterexample :
    Guardian.freefallCond ⟨100, 0, 0⟩ ∧
    (Guardian.checkForFall ⟨100, 0, 0⟩ 600 ⟨true, 100⟩).2.freefall_time ≠
      100 := by decide

/-- Claim C5 (amended): in the display variant EVERY sub-threshold sample
sets the flag and re-records `freefall_time := millis()`, whether or not a
window is already open (so the recorded start slides forward on repeated
sub-threshold samples, and the window closes only by impact or by timeout
measured from the last such sample).  In `part_003` the window is opened
only when none is open, further sub-threshold samples leave the recorded
start unchanged — but the window is closed by ANY sample at or above
`FREEFALL_THRESHOLD_G`, impact or not, and there is no timeout-based
closing. -/
theorem C5_window_state (raw : AccelRaw) (now : Nat) (s : FallState) :
    (Guardian.freefallCond raw →
      Guardian.checkForFall raw now s = (false, ⟨true, now⟩)) ∧
    (V3.freefallCond raw → s.freefall_flag = true →
      V3.checkForFall raw now s = (false, s)) ∧
    (V3.freefallCond raw → s.freefall_flag = false →
      V3.checkForFall raw now s = (false, ⟨true, now⟩)) ∧
    (¬ V3.freefallCond raw → s.freefall_flag = true →
      (V3.checkForFall raw now s).2.freefall_flag = false) := by
  refine ⟨fun hf => ?_, fun hf hflag => ?_, fun hf hflag => ?_,
    fun hnf hflag => ?_⟩
  · unfold Guardian.checkForFall checkForFallCore
    rw [if_pos hf]
    simp [Guardian.freefall_not_impact raw hf, usub32_self]
  · unfold V3.checkForFall
    rw [if_pos hf, if_pos hflag]
  · unfold V3.checkForFall
    rw [if_pos hf, if_neg (by simp [hflag])]
  · unfold V3.checkForFall
    rw [if_neg hnf, if_pos hflag]
    split_ifs <;> rfl

/-- Witness for C5 (amended): concrete instances of all four conjuncts —
the display variant re-stamps an open window to `700`; `part_003` keeps an
open window's stamp `400` under a sub-threshold sample, opens a closed one
at `500`, and closes an open window on an ordinary at-rest sample
`(64,64,64)` that is neither freefall nor impact. -/
theorem C5_window_state_witness :
    Guardian.checkForFall ⟨100, 0, 0⟩ 700 ⟨true, 50⟩ = (false, ⟨true, 700⟩) ∧
    V3.checkForFall ⟨10, 0, 0⟩ 500 ⟨true, 400⟩ = (false, ⟨true, 400⟩) ∧
    V3.checkForFall ⟨10, 0, 0⟩ 500 ⟨false, 0⟩ = (false, ⟨true, 500⟩) ∧
    (V3.checkForFall ⟨64, 64, 64⟩ 500 ⟨true, 400⟩).2.freefall_flag = false :=
  ⟨(C5_window_state ⟨100, 0, 0⟩ 700 ⟨true, 50⟩).1 (by decide),
   (C5_window_state ⟨10, 0, 0⟩ 500 ⟨true, 400⟩).2.1 (by decide) (by decide),
   (C5_window_state ⟨10, 0, 0⟩ 500 ⟨false, 0⟩).2.2.1 (by decide) (by decide),
   (C5_window_state ⟨64, 64, 64⟩ 500 ⟨true, 400⟩).2.2.2 (by decide)
     (by decide)⟩

/-- Counterexample to claim C7, in both cited variants.  A freefall sample
at `0` ms opens the window; the next call is an impact at `5000` ms — no
impact occurred within `FREEFALL_TIMEOUT` (`1000` ms display, `1200` ms
proxy) of the window opening and no new freefall intervened, yet both
detectors return `true`, because the impact test precedes the timeout test
and no intervening call had closed the window. -/
theorem C7_timeout_counterexample :
    runCheck Guardian.checkForFall [(⟨100, 0, 0⟩, 0), (⟨4096, 0, 0⟩, 5000)]
        ⟨false, 0⟩ = [false, true] ∧
    runCheck Proxy.checkForFall [(⟨100, 0, 0⟩, 0), (⟨4096, 0, 0⟩, 5000)]
        ⟨false, 0⟩ = [false, true] := by decide

/-- Claim C7 (amended): in the display and proxy variants alike, the
timeout closes the window only when some call is processed after the
variant's `FREEFALL_TIMEOUT` (`1000` ms display, `1200` ms proxy) with a
sample that is neither sub-threshold nor an impact; such a call returns
`false` and clears the flag, and once the flag is down a later impact
sample (not itself sub-threshold) returns `false` and changes nothing.  An
impact sample processed while the flag is still up returns `true` even if
more than `FREEFALL_TIMEOUT` has elapsed (`C7_timeout_counterexample`). -/
theorem C7_timeout_closes_window (raw : AccelRaw) (now : Nat) (s : FallState) :
    (s.freefall_flag = true → ¬ Guardian.freefallCond raw →
      ¬ Guardian.impactCond raw →
      usub32 now s.freefall_time > Guardian.FREEFALL_TIMEOUT →
      Guardian.checkForFall raw now s = (false, ⟨false, s.freefall_time⟩)) ∧
    (s.freefall_flag = false → ¬ Guardian.freefallCond raw →
      Guardian.checkForFall raw now s = (false, s)) ∧
    (s.freefall_flag = true → ¬ Proxy.freefallCond raw →
      ¬ Proxy.impactCond raw →
      usub32 now s.freefall_time > Proxy.FREEFALL_TIMEOUT →
      Proxy.checkForFall raw now s = (false, ⟨false, s.freefall_time⟩)) ∧
    (s.freefall_flag = false → ¬ Proxy.freefallCond raw →
      Proxy.checkForFall raw now s = (false, s)) := by
  refine ⟨fun hflag hnf hni htime => ?_, fun hflag hnf => ?_,
    fun hflag hnf hni htime => ?_, fun hflag hnf => ?_⟩
  · unfold Guardian.checkForFall checkForFallCore
    rw [if_neg hnf]
    simp [hflag, hni, htime]
  · unfold Guardian.checkForFall checkForFallCore
    rw [if_neg hnf]
    simp [hflag]
  · unfold Proxy.checkForFall checkForFallCore
    rw [if_neg hnf]
    simp [hflag, hni, htime]
  · unfold Proxy.checkForFall checkForFallCore
    rw [if_neg hnf]
    simp [hflag]

/-- Witness for C7 (amended): in each variant, an at-rest sample after the
variant's timeout (`1500` ms) closes the window opened at `0` without
confirming, and afterwards a bare impact at `1600` ms with the flag down
returns `false`. -/
theorem C7_timeout_closes_window_witness :
    Guardian.checkForFall ⟨1024, 0, 0⟩ 1500 ⟨true, 0⟩ =
      (false, ⟨false, 0⟩) ∧
    Guardian.checkForFall ⟨4096, 0, 0⟩ 1600 ⟨false, 0⟩ =
      (false, ⟨false, 0⟩) ∧
    Proxy.checkForFall ⟨256, 0, 0⟩ 1500 ⟨true, 0⟩ =
      (false, ⟨false, 0⟩) ∧
    Proxy.checkForFall ⟨4096, 0, 0⟩ 1600 ⟨false, 0⟩ =
      (false, ⟨false, 0⟩) :=
  ⟨(C7_timeout_closes_window ⟨1024, 0, 0⟩ 1500 ⟨true, 0⟩).1 (by decide)
      (by decide) (by decide) (by decide),
   (C7_timeout_closes_window ⟨4096, 0, 0⟩ 1600 ⟨false, 0⟩).2.1 (by decide)
      (by decide),
   (C7_timeout_closes_window ⟨256, 0, 0⟩ 1500 ⟨true, 0⟩).2.2.1 (by decide)
      (by decide) (by decide) (by decide),
   (C7_timeout_closes_window ⟨4096, 0, 0⟩ 1600 ⟨false, 0⟩).2.2.2 (by decide)
     (by decide)⟩

/-- Claim C9 (confirmed): state ownership in the display variant's loop.
`checkForFall` receives and returns only the freefall-window state (its
model signature carries no `lastAlertTime` at all, matching the source,
where it touches only `freefall_flag` and `freefall_time`).  At loop level:
an iteration that emits no alert leaves `lastAlertTime` unchanged, and the
freefall-window state after an iteration is either untouched (cooldown
active) or exactly the state produced by `checkForFall` — the loop never
writes it directly. -/
theorem C9_state_separation (inp : CycleInput) (s : DeviceState) :
    ((Guardian.loopStep inp s).1 = [] →
      (Guardian.loopStep inp s).2.lastAlertTime = s.lastAlertTime) ∧
    ((Guardian.loopStep inp s).2.fall = s.fall ∨
      (Guardian.loopStep inp s).2.fall =
        (Guardian.checkForFall inp.raw inp.tFallCheck s.fall).2) := by
  unfold Guardian.loopStep loopBody
  by_cases hcd : usub32 inp.tStart s.lastAlertTime > Guardian.ALERT_COOLDOWN
  · rw [if_pos hcd]
    by_cases hb : inp.buttonPressed = true <;>
      by_cases hf :
          (Guardian.checkForFall inp.raw inp.tFallCheck s.fall).1 = true <;>
        simp [hb, hf]
  · rw [if_neg hcd]
    simp

/-- Witness for C9: a quiet cycle (no button, at-rest sample) emits nothing
and keeps `lastAlertTime = 500`; its freefall state comes from
`checkForFall`. -/
theorem C9_state_separation_witness :
    (Guardian.loopStep ⟨false, ⟨1024, 0, 0⟩, 20000, 20000, 20100, 20200, true⟩
        ⟨500, ⟨false, 0⟩⟩).2.lastAlertTime = 500 ∧
    ((Guardian.loopStep ⟨false, ⟨1024, 0, 0⟩, 20000, 20000, 20100, 20200, true⟩
        ⟨500, ⟨false, 0⟩⟩).2.fall = ⟨false, 0⟩ ∨
      (Guardian.loopStep ⟨false, ⟨1024, 0, 0⟩, 20000, 20000, 20100, 20200, true⟩
        ⟨500, ⟨false, 0⟩⟩).2.fall =
        (Guardian.checkForFall ⟨1024, 0, 0⟩ 20000 ⟨false, 0⟩).2) :=
  ⟨(C9_state_separation _ _).1 (by decide), (C9_state_separation _ _).2⟩

/-- Claim C10 (confirmed): in the display and proxy variants the re-arm
boundary is strict.  When the unsigned 32-bit difference
`millis() - lastAlertTime` equals `ALERT_COOLDOWN` exactly (and in general
whenever it is at most `ALERT_COOLDOWN`), both trigger sources are
suppressed; the button and fall checks (the loop body) run exactly when the
difference — computed modulo `2^32` by `usub32` — is strictly greater. -/
theorem C10_strict_rearm (inp : CycleInput) (s : DeviceState) :
    (usub32 inp.tStart s.lastAlertTime = 10000 →
      Guardian.loopStep inp s = ([], s) ∧ Proxy.loopStep inp s = ([], s)) ∧
    (usub32 inp.tStart s.lastAlertTime ≤ 10000 →
      Guardian.loopStep inp s = ([], s) ∧ Proxy.loopStep inp s = ([], s)) ∧
    (usub32 inp.tStart s.lastAlertTime > 10000 →
      Guardian.loopStep inp s = loopBody Guardian.checkForFall inp s ∧
      Proxy.loopStep inp s = loopBody Proxy.checkForFall inp s) := by
  refine ⟨fun he => ?_, fun hle => ?_, fun hgt => ?_⟩
  · constructor
    · unfold Guardian.loopStep Guardian.ALERT_COOLDOWN
      rw [if_neg (by omega)]
    · unfold Proxy.loopStep Proxy.ALERT_COOLDOWN
      rw [if_neg (by omega)]
  · constructor
    · unfold Guardian.loopStep Guardian.ALERT_COOLDOWN
      rw [if_neg (by omega)]
    · unfold Proxy.loopStep Proxy.ALERT_COOLDOWN
      rw [if_neg (by omega)]
  · constructor
    · unfold Guardian.loopStep Guardian.ALERT_COOLDOWN
      rw [if_pos (by omega)]
    · unfold Proxy.loopStep Proxy.ALERT_COOLDOWN
      rw [if_pos (by omega)]

/-- Witness for C10: with `lastAlertTime = 2^32 - 5000` and
`millis() = 5000`, the modulo-`2^32` difference is exactly `10000`, and
both variants suppress even with the button held and an impact ready; at a
difference of `10001` both variants run the loop body. -/
theorem C10_strict_rearm_witness :
    (Guardian.loopStep ⟨true, ⟨4096, 0, 0⟩, 5000, 5100, 5200, 5300, true⟩
        ⟨2 ^ 32 - 5000, ⟨true, 4900⟩⟩ =
      ([], ⟨2 ^ 32 - 5000, ⟨true, 4900⟩⟩) ∧
     Proxy.loopStep ⟨true, ⟨4096, 0, 0⟩, 5000, 5100, 5200, 5300, true⟩
        ⟨2 ^ 32 - 5000, ⟨true, 4900⟩⟩ =
      ([], ⟨2 ^ 32 - 5000, ⟨true, 4900⟩⟩)) ∧
    (Guardian.loopStep ⟨true, ⟨4096, 0, 0⟩, 10001, 10101, 10201, 10301, true⟩
        ⟨0, ⟨false, 0⟩⟩ =
      loopBody Guardian.checkForFall
        ⟨true, ⟨4096, 0, 0⟩, 10001, 10101, 10201, 10301, true⟩
        ⟨0, ⟨false, 0⟩⟩ ∧
     Proxy.loopStep ⟨true, ⟨4096, 0, 0⟩, 10001, 10101, 10201, 10301, true⟩
        ⟨0, ⟨false, 0⟩⟩ =
      loopBody Proxy.checkForFall
        ⟨true, ⟨4096, 0, 0⟩, 10001, 10101, 10201, 10301, true⟩
        ⟨0, ⟨false, 0⟩⟩) :=
  ⟨(C10_strict_rearm _ _).1 (by decide),
   (C10_strict_rearm _ _).2.2 (by decide)⟩
